import Mathlib

/-
  Verification development for the bevy-earth repository.

  Embedded sources: src/math.rs (coordinate conversion, face mesh
  generation), src/main.rs (job dispatch, polling, readiness check),
  src/resource.rs (loading progress), src/state.rs (game states),
  src/gui.rs (pre-loading frame counter).

  Numeric model: the Rust code computes in `f32`; the embedding uses exact
  rational arithmetic (`ℚ`).  The transcendental library operations the
  source calls (`Vec3::normalize`, `f32::asin`, `f32::atan2`) are abstracted
  as oracle parameters of `generate_face`, because the properties under
  study quantify over their outputs; every other arithmetic step of the
  source is translated literally.  The rational model is exact only on
  finite values; the `NaN` behaviour of `f32` (which decides what happens
  at resolution < 2) is modelled separately and faithfully by the `F32`
  fragment further down, and every theorem about the rational definitions
  evaluates them only on paths where no `NaN` can arise.
-/

/-- The constant `std::f32::consts::PI`: the exact rational value of the 32-bit float
constant, namely `13176795 / 2 ^ 22 = 3.14159274101...`. -/
def PI : ℚ := 13176795 / 4194304

/-- Rust's `bevy::math::Vec3` restricted to what the source touches, with exact
rational components in place of `f32`. -/
structure Vec3 where
  x : ℚ
  y : ℚ
  z : ℚ
  deriving DecidableEq, Repr

instance : Add Vec3 := ⟨fun a b => ⟨a.x + b.x, a.y + b.y, a.z + b.z⟩⟩

instance : Neg Vec3 := ⟨fun a => ⟨-a.x, -a.y, -a.z⟩⟩

/-- In glam, `Vec3 * Vec3` is componentwise. -/
instance : Mul Vec3 := ⟨fun a b => ⟨a.x * b.x, a.y * b.y, a.z * b.z⟩⟩

instance : SMul ℚ Vec3 := ⟨fun c a => ⟨c * a.x, c * a.y, c * a.z⟩⟩

/-- The cross product `Vec3::cross` of glam. -/
def Vec3.cross (a b : Vec3) : Vec3 :=
  ⟨a.y * b.z - a.z * b.y, a.z * b.x - a.x * b.z, a.x * b.y - a.y * b.x⟩

/-- The constant `EARTH_RADIUS: Vec3 = Vec3::new(1000., 1000., 1000.)` (src/main.rs). -/
def EARTH_RADIUS : Vec3 := ⟨1000, 1000, 1000⟩

/-- Rust's `fn map` (src/math.rs): linear interpolation mapping `value` from
`input_range` to `output_range`. -/
def map (input_range : ℚ × ℚ) (output_range : ℚ × ℚ) (value : ℚ) : ℚ :=
  let in_min := input_range.1
  let in_max := input_range.2
  let out_min := output_range.1
  let out_max := output_range.2
  let normalized := (value - in_min) / (in_max - in_min)
  out_min + normalized * (out_max - out_min)

/-- Rust's `fn map_latitude` (src/math.rs).  The early `return Err(...)` is the
first branch; `(0.0..=90.0).contains(&lat)` is `0 ≤ lat ∧ lat ≤ 90`.
The Rust error string is a plain literal (no `format!`), reproduced as is. -/
def map_latitude (lat : ℚ) : Except String ℚ :=
  if ¬(-90 ≤ lat ∧ lat ≤ 90) then
    Except.error "Invalid latitude: \x7blat:?\x7d"
  else if 0 ≤ lat ∧ lat ≤ 90 then
    Except.ok (map (90, 0) (0, 1/2) lat)
  else
    Except.ok (map (0, -90) (1/2, 1) lat)

/-- Rust's `fn map_longitude` (src/math.rs). -/
def map_longitude (lon : ℚ) : Except String ℚ :=
  if ¬(-180 ≤ lon ∧ lon ≤ 180) then
    Except.error "Invalid longitude: \x7blon:?\x7d"
  else if -180 ≤ lon ∧ lon ≤ 0 then
    Except.ok (map (-180, 0) (0, 1/2) lon)
  else
    Except.ok (map (0, 180) (1/2, 1) lon)

/-- Rust's `struct Coordinates` (src/math.rs): latitude and longitude stored in
radians. -/
structure Coordinates where
  latitude : ℚ
  longitude : ℚ
  deriving DecidableEq, Repr

/-- Rust's `Coordinates::as_degrees` (src/math.rs): multiply both radian fields by
`180.0 / PI`.  The model computes the quotient exactly in `ℚ` where `f32`
rounds it; no claim in this development depends on that rounding. -/
def Coordinates.as_degrees (c : Coordinates) : ℚ × ℚ :=
  (c.latitude * (180 / PI), c.longitude * (180 / PI))

/-- Rust's `Coordinates::convert_to_uv_mercator` (src/math.rs).  The Rust function
calls `.unwrap()` on both mapper results, panicking if either errors; this
rational model returns `none` in that case, and every theorem that
evaluates it does so only at in-domain coordinates where the result is
`some`.  The panic itself (which really fires at resolution = 1, where NaN
degrees reach the mappers) is modelled faithfully by
`convert_to_uv_mercator_run` on the f32 fragment below. -/
def Coordinates.convert_to_uv_mercator (c : Coordinates) : Option (ℚ × ℚ) :=
  let lat := c.as_degrees.1
  let lon := c.as_degrees.2
  match (map_latitude lat).toOption, (map_longitude lon).toOption with
  | some v, some u => some (u, v)
  | _, _ => none

/-- First seam-correction condition of `generate_face` (src/math.rs line 145):
`first_longitude < 0.0 && lon > 0.0 && lat < 89.0 && lat > -89.0`.
Both `lat` and `lon` are the RADIAN fields of `Coordinates` (the code reads
`point_coords.latitude` / `.longitude` directly, not `as_degrees`). -/
def seam1 (first_longitude : ℚ) (c : Coordinates) : Prop :=
  first_longitude < 0 ∧ 0 < c.longitude ∧ c.latitude < 89 ∧ -89 < c.latitude

instance (fl : ℚ) (c : Coordinates) : Decidable (seam1 fl c) := by
  unfold seam1; infer_instance

/-- Second seam-correction condition of `generate_face` (src/math.rs line 151):
`x == 0 && lon == 180.0 && lat < -40.0`, again on the RADIAN fields. -/
def seam2 (x : ℕ) (c : Coordinates) : Prop :=
  x = 0 ∧ c.longitude = 180 ∧ c.latitude < -40

instance (x : ℕ) (c : Coordinates) : Decidable (seam2 x c) := by
  unfold seam2; infer_instance

/-- Lines 134-157 of `generate_face` (src/math.rs): the uv pair pushed for
the vertex in grid column `x`, given the patch's `first_longitude` and the
vertex's geographic coordinates `c`.  Models
`let (mut u, v) = point_coords.convert_to_uv_mercator();` followed by the
two seam corrections.  The `unwrap` panic case is replaced by `(0, 0)` in
this rational model; every theorem below that evaluates uv values does so
at coordinates whose degree values are in the mappers' domains, where no
panic occurs, and the panic path is modelled faithfully by
`convert_to_uv_mercator_run` on the f32 fragment below. -/
def computeUV (first_longitude : ℚ) (x : ℕ) (c : Coordinates) : ℚ × ℚ :=
  let uv := c.convert_to_uv_mercator.getD (0, 0)
  let u0 := if seam1 first_longitude c then 0 else uv.1
  let u := if seam2 x c then 0 else u0
  (u, uv.2)

/-- The point on the unit cube computed for grid cell `(x, y)` in
`generate_face` (src/math.rs lines 107-126):
`axis_a = (normal.y, normal.z, normal.x)`, `axis_b = axis_a × normal`,
`percent = (x, y) / (resolution - 1)`,
`normal + (percent.x - x_offset) * axis_a + (percent.y - y_offset) * axis_b`.
`resolution - 1` is `u32` subtraction, which would panic (debug) or wrap
(release) on underflow at `resolution = 0`; the expression is only ever
evaluated inside the loop body, which does not run at `resolution = 0`, so
the `ℕ` truncated subtraction used here never differs on an executed path.
For `resolution = 1` the `f32` division is `0.0 / 0.0 = NaN` where this
rational model yields `0`: no theorem inspects THIS definition's values at
`resolution < 2`; the NaN trace and the panic it causes are modelled
faithfully by `point_on_unit_cube_f32` and `vertex_uv_run` below. -/
def point_on_unit_cube (normal : Vec3) (resolution : ℕ) (x_offset y_offset : ℚ)
    (x y : ℕ) : Vec3 :=
  let axis_a : Vec3 := ⟨normal.y, normal.z, normal.x⟩
  let axis_b := axis_a.cross normal
  let d : ℚ := ((resolution - 1 : ℕ) : ℚ)
  let px := (x : ℚ) / d
  let py := (y : ℚ) / d
  normal + (px - x_offset) • axis_a + (py - y_offset) • axis_b

/-- The four attribute buffers built by `generate_face` before they are
inserted into the bevy `Mesh` (tangent generation is engine code and is not
modelled).  Field names keep the source's spelling. -/
structure MeshData where
  verticies : List Vec3
  indicies : List ℕ
  normals : List Vec3
  uvs : List (ℚ × ℚ)
  deriving DecidableEq, Repr

/-- Rust's `fn generate_face` (src/math.rs lines 106-181).

The imperative double loop `for y in 0..resolution { for x in 0..resolution
{ ... } }` pushes, per iteration, exactly one element to `verticies`,
`normals` and `uvs`, and six indices when `x != resolution - 1 && y !=
resolution - 1`; it is rendered as `flatMap`/`map` over `List.range`.

`first_longitude` starts at `0.` and is overwritten with the current
longitude at the first iteration (`y == 0 && x == 0`) before the seam
checks run, so every iteration (the first included) sees the longitude of
grid point `(0, 0)`; for `resolution = 0` the loop body never runs and the
initial `0.` is never read.

`normalize`, and the `asin`/`atan2` inside `impl From<Vec3> for
Coordinates`, are transcendental `f32` operations; they enter as the oracle
parameters `unitize` and `toCoords`.  The source computes
`point_coords = point_on_unit_cube.normalize().into()`,
`normalized_point = point_on_unit_cube.normalize() * EARTH_RADIUS`, and
pushes `-point_on_unit_cube.normalize()` as the vertex normal. -/
def generate_face (unitize : Vec3 → Vec3) (toCoords : Vec3 → Coordinates)
    (normal : Vec3) (resolution : ℕ) (x_offset y_offset : ℚ) : MeshData :=
  let point := fun x y =>
    unitize (point_on_unit_cube normal resolution x_offset y_offset x y)
  let first_longitude : ℚ :=
    if resolution = 0 then 0 else (toCoords (point 0 0)).longitude
  { verticies := (List.range resolution).flatMap fun y =>
      (List.range resolution).map fun x => point x y * EARTH_RADIUS
    indicies := (List.range resolution).flatMap fun y =>
      (List.range resolution).flatMap fun x =>
        let i := x + y * resolution
        if x ≠ resolution - 1 ∧ y ≠ resolution - 1 then
          [i, i + resolution, i + resolution + 1, i, i + resolution + 1, i + 1]
        else []
    normals := (List.range resolution).flatMap fun y =>
      (List.range resolution).map fun x => -(point x y)
    uvs := (List.range resolution).flatMap fun y =>
      (List.range resolution).map fun x =>
        computeUV first_longitude x (toCoords (point x y)) }

/-- Rust's `enum GameState` (src/state.rs). -/
inductive GameState
  | PreLoading
  | Loading
  | PostLoading
  | Playing
  deriving DecidableEq, Repr

/-- Rust's `struct LoadingProgress` (src/resource.rs). -/
structure LoadingProgress where
  mesh : ℕ
  texture : ℕ
  deriving DecidableEq, Repr

/-- Rust's `LoadingProgress::progress` (src/resource.rs):
`(texture as f32 / 3.) * 0.7 + (mesh as f32 / 24.) * 0.3`, with the decimal
literals read as the exact rationals they denote. -/
def LoadingProgress.progress (p : LoadingProgress) : ℚ :=
  ((p.texture : ℚ) / 3) * (7 / 10) + ((p.mesh : ℚ) / 24) * (3 / 10)

/-- Rust's `LoadingProgress::is_complete` (src/resource.rs):
`self.texture >= 3 && self.mesh >= 24`. -/
def LoadingProgress.is_complete (p : LoadingProgress) : Bool :=
  decide (3 ≤ p.texture) && decide (24 ≤ p.mesh)

/-- Rust's `fn check_ready` (src/main.rs): one tick of the readiness system, which
bevy runs only while the state is `Loading`.  Each boolean argument models
one `asset_server.is_loaded_with_dependencies(...)` probe; the function
counts them into `progress.texture` and sets the next state to
`PostLoading` when `is_complete`, otherwise the state remains `Loading`
(in bevy, not calling `next_state.set` leaves the state unchanged). -/
def check_ready (base_color_loaded metallic_roughness_loaded normal_map_loaded : Bool)
    (p : LoadingProgress) : LoadingProgress × GameState :=
  let loaded : ℕ :=
    (if base_color_loaded then 1 else 0) +
    (if metallic_roughness_loaded then 1 else 0) +
    (if normal_map_loaded then 1 else 0)
  let p := { p with texture := loaded }
  (p, if p.is_complete then GameState.PostLoading else GameState.Loading)

/-- The state-transition tail of `fn display_loading_screen` (src/gui.rs
lines 97-102): while in `PreLoading`, increment the `frames_rendered`
local and switch to `Loading` once it reaches 3.  The widget-drawing body
reads `progress` for display only; it is kept as an argument to record
that the transition does not depend on it. -/
def display_loading_screen (state : GameState) (frames_rendered : ℕ)
    (_progress : LoadingProgress) : GameState × ℕ :=
  if state = GameState.PreLoading then
    let frames := frames_rendered + 1
    (if 3 ≤ frames then GameState.Loading else GameState.PreLoading, frames)
  else
    (state, frames_rendered)

/-- The state and frame counter after `n` rendered frames, starting at
startup: state `PreLoading` (the `#[default]` variant) and the `Local<u8>`
counter at 0. -/
def run_frames (p : LoadingProgress) : ℕ → GameState × ℕ
  | 0 => (GameState.PreLoading, 0)
  | n + 1 =>
    let st := run_frames p n
    display_loading_screen st.1 st.2 p

/-- The `faces` array of `fn spawn_task` (src/main.rs):
`[Vec3::X, Vec3::NEG_X, Vec3::Y, Vec3::NEG_Y, Vec3::Z, Vec3::NEG_Z]`. -/
def faces : List Vec3 :=
  [⟨1, 0, 0⟩, ⟨-1, 0, 0⟩, ⟨0, 1, 0⟩, ⟨0, -1, 0⟩, ⟨0, 0, 1⟩, ⟨0, 0, -1⟩]

/-- The `offsets` array of `fn spawn_task` (src/main.rs):
`[(0.0, 0.0), (0.0, 1.0), (1.0, 0.0), (1.0, 1.0)]`. -/
def offsets : List (ℚ × ℚ) := [(0, 0), (0, 1), (1, 0), (1, 1)]

/-- The job enumeration of `fn spawn_task` (src/main.rs):
`for direction in faces { for offset in offsets { ... spawn one task ... } }`,
one `(direction, offset)` job specification per iteration, in loop order. -/
def spawn_task : List (Vec3 × (ℚ × ℚ)) :=
  faces.flatMap fun direction => offsets.map fun offset => (direction, offset)

/-- Loop body of `fn handle_tasks` (src/main.rs) for one entity holding a
`ComputeMesh` task: if the task polls ready, the component is removed (the
entity leaves the pending set) and `progress.mesh` is incremented by 1;
otherwise the entity stays pending.  `finished` is the set of entities
whose background computation has completed this tick. -/
def handle_task_step (finished : List ℕ) (st : List ℕ × LoadingProgress)
    (entity : ℕ) : List ℕ × LoadingProgress :=
  if entity ∈ finished then
    (st.1, { st.2 with mesh := st.2.mesh + 1 })
  else
    (st.1 ++ [entity], st.2)

/-- Rust's `fn handle_tasks` (src/main.rs): one polling tick over the query of
still-pending entities; returns the entities still pending afterwards and
the updated progress. -/
def handle_tasks (finished pending : List ℕ) (p : LoadingProgress) :
    List ℕ × LoadingProgress :=
  pending.foldl (handle_task_step finished) ([], p)

/-- Concrete oracle standing in for `Vec3::normalize` in closed witnesses. -/
def trivialUnitize : Vec3 → Vec3 := fun v => v

/-- Concrete oracle standing in for `impl From<Vec3> for Coordinates` in
closed witnesses. -/
def trivialCoords : Vec3 → Coordinates := fun _ => ⟨0, 0⟩

/-- An `f32` scalar in the fragment needed to trace `generate_face` at
`resolution < 2`: a finite value (exact rational, with `f32` rounding
abstracted as everywhere in this development) or NaN.  Infinities are left
outside the fragment: on the traced path the only division with a zero
divisor is `0.0 / 0.0`, whose `f32` result is NaN, and no other operation
there can produce an infinity from its small finite operands. -/
inductive F32 where
  | fin : ℚ → F32
  | nan : F32
  deriving DecidableEq, Repr

/-- f32 addition on the fragment: NaN-strict, exact on finite values. -/
def F32.add : F32 → F32 → F32
  | .fin a, .fin b => .fin (a + b)
  | _, _ => .nan

/-- f32 subtraction on the fragment: NaN-strict, exact on finite values. -/
def F32.sub : F32 → F32 → F32
  | .fin a, .fin b => .fin (a - b)
  | _, _ => .nan

/-- f32 multiplication on the fragment: NaN-strict, exact on finite
values. -/
def F32.mul : F32 → F32 → F32
  | .fin a, .fin b => .fin (a * b)
  | _, _ => .nan

/-- f32 division on the fragment: a NaN operand and `0.0 / 0.0` give NaN;
division by a nonzero finite is exact.  Dividing a nonzero finite by zero
gives an infinity in `f32`, which leaves the fragment: that case is
`none`.  (It is never evaluated below: at `resolution = 1` the only grid
indices are `x = y = 0`, so each division by `resolution - 1 = 0` has
dividend `0.0`.) -/
def F32.div : F32 → F32 → Option F32
  | .fin a, .fin b =>
    if b = 0 then (if a = 0 then some .nan else none) else some (.fin (a / b))
  | _, _ => some .nan

/-- f32 `<=` on the fragment: an IEEE comparison with a NaN operand is
false; on finite values it is the exact order. -/
def F32.le : F32 → F32 → Bool
  | .fin a, .fin b => decide (a ≤ b)
  | _, _ => false

/-- Rust's `Vec3` with f32-fragment components, for the NaN trace. -/
structure Vec3F where
  x : F32
  y : F32
  z : F32
  deriving DecidableEq, Repr

/-- Componentwise vector sum (glam `Vec3 + Vec3`) on the fragment. -/
def Vec3F.add (a b : Vec3F) : Vec3F :=
  ⟨a.x.add b.x, a.y.add b.y, a.z.add b.z⟩

/-- Scalar-times-vector (glam `f32 * Vec3`) on the fragment. -/
def Vec3F.scale (s : F32) (v : Vec3F) : Vec3F :=
  ⟨s.mul v.x, s.mul v.y, s.mul v.z⟩

/-- The cross product `Vec3::cross` of glam on the fragment. -/
def Vec3F.cross (a b : Vec3F) : Vec3F :=
  ⟨(a.y.mul b.z).sub (a.z.mul b.y),
   (a.z.mul b.x).sub (a.x.mul b.z),
   (a.x.mul b.y).sub (a.y.mul b.x)⟩

/-- Rust's `struct Coordinates` with f32-fragment fields. -/
structure CoordinatesF where
  latitude : F32
  longitude : F32
  deriving DecidableEq, Repr

/-- Rust's `fn map_latitude` re-traced on the f32 fragment.  The range
guard is the IEEE comparison (`F32.le`, false on NaN), so
`(-90.0..=90.0).contains(&lat)` is false for a NaN latitude and the
negated guard takes the `Err` branch - this is the branch
`convert_to_uv_mercator` then unwraps.  In the `Ok` branches the guard has
ensured `lat` is finite, and the interpolation is the exact `map` above
(the inner `.nan` arms are unreachable, present only for totality). -/
def map_latitude_f32 (lat : F32) : Except String F32 :=
  if !(F32.le (.fin (-90)) lat && F32.le lat (.fin 90)) then
    Except.error "Invalid latitude: \x7blat:?\x7d"
  else if F32.le (.fin 0) lat && F32.le lat (.fin 90) then
    Except.ok (match lat with
      | .fin q => .fin (map (90, 0) (0, 1/2) q)
      | .nan => .nan)
  else
    Except.ok (match lat with
      | .fin q => .fin (map (0, -90) (1/2, 1) q)
      | .nan => .nan)

/-- Rust's `fn map_longitude` re-traced on the f32 fragment, exactly as
`map_latitude_f32`. -/
def map_longitude_f32 (lon : F32) : Except String F32 :=
  if !(F32.le (.fin (-180)) lon && F32.le lon (.fin 180)) then
    Except.error "Invalid longitude: \x7blon:?\x7d"
  else if F32.le (.fin (-180)) lon && F32.le lon (.fin 0) then
    Except.ok (match lon with
      | .fin q => .fin (map (-180, 0) (0, 1/2) q)
      | .nan => .nan)
  else
    Except.ok (match lon with
      | .fin q => .fin (map (0, 180) (1/2, 1) q)
      | .nan => .nan)

/-- Rust's `Coordinates::convert_to_uv_mercator` on the f32 fragment with
the two `.unwrap()` calls made explicit: an `Except.error` result is the
panic raised by unwrapping the mapper's `Err` (the process aborts there;
nothing is returned).  `as_degrees` is the NaN-strict multiplication of
the radian fields by `180.0 / PI`. -/
def convert_to_uv_mercator_run (c : CoordinatesF) : Except String (F32 × F32) := do
  let lat := c.latitude.mul (.fin (180 / PI))
  let lon := c.longitude.mul (.fin (180 / PI))
  let v ← map_latitude_f32 lat
  let u ← map_longitude_f32 lon
  pure (u, v)

/-- The grid-cell point of `generate_face` re-traced on the f32 fragment
(src/math.rs lines 107-126), with the `percent` division NaN-aware: at
`resolution = 1` both components of `percent` are `0.0 / 0.0 = NaN`, and
the NaN propagates into every component of the returned point.  A `none`
result would mean an infinity arose; on the inputs evaluated below it
never does. -/
def point_on_unit_cube_f32 (normal : Vec3F) (resolution : ℕ)
    (x_offset y_offset : F32) (x y : ℕ) : Option Vec3F := do
  let axis_a : Vec3F := ⟨normal.y, normal.z, normal.x⟩
  let axis_b := axis_a.cross normal
  let d : F32 := .fin ((resolution - 1 : ℕ) : ℚ)
  let px ← F32.div (.fin (x : ℚ)) d
  let py ← F32.div (.fin (y : ℚ)) d
  pure ((normal.add (Vec3F.scale (px.sub x_offset) axis_a)).add
    (Vec3F.scale (py.sub y_offset) axis_b))

/-- What `generate_face` computes for grid cell `(x, y)` up to and
including the uv conversion whose `.unwrap()` can panic (src/math.rs lines
124-134), on the f32 fragment.  `unitizeF` and `toCoordsF` are the
f32-fragment oracles for `Vec3::normalize` and
`impl From<Vec3> for Coordinates`; the outer `Option` is fragment
exhaustion (an infinity), the inner `Except` the unwrap panic. -/
def vertex_uv_run (unitizeF : Vec3F → Vec3F) (toCoordsF : Vec3F → CoordinatesF)
    (normal : Vec3F) (resolution : ℕ) (x_offset y_offset : F32) (x y : ℕ) :
    Option (Except String (F32 × F32)) := do
  let p ← point_on_unit_cube_f32 normal resolution x_offset y_offset x y
  pure (convert_to_uv_mercator_run (toCoordsF (unitizeF p)))

/-- Concrete f32-fragment oracle for `Vec3::normalize` in closed
statements: the identity, which - like the real `normalize`, whose NaN
length contaminates every component - maps the all-NaN vector to the
all-NaN vector. -/
def nanStrictUnitizeF : Vec3F → Vec3F := fun v => v

/-- Concrete f32-fragment oracle for `impl From<Vec3> for Coordinates` in
closed statements: mirrors the shape `latitude = asin(y)`,
`longitude = atan2(x, z)` with the transcendentals dropped; like the real
conversion (`asin(NaN) = NaN`, `atan2(NaN, NaN) = NaN`) it maps the
all-NaN vector to all-NaN coordinates. -/
def nanStrictCoordsF : Vec3F → CoordinatesF := fun v => ⟨v.y, v.x⟩

/-- Helper: a sum over `List.range n` of a guard that every element passes
(`x ≠ t` holds for all `x < n ≤ t`) collapses to `n * c`. -/
theorem sum_map_ite_ne (n t c : ℕ) (h : n ≤ t) :
    ((List.range n).map fun x => if x ≠ t then c else 0).sum = n * c := by
  induction n with
  | zero => simp
  | succ m ih =>
    rw [List.range_succ, List.map_append, List.sum_append, ih (by omega)]
    have hm : m ≠ t := by omega
    simp [hm, Nat.succ_mul]

/-- Helper: one element is produced per cell of the `resolution × resolution`
grid traversal. -/
theorem length_flatMap_grid {α : Type} (n : ℕ) (f : ℕ → ℕ → α) :
    ((List.range n).flatMap fun y => (List.range n).map fun x => f x y).length = n * n := by
  rw [List.length_flatMap]
  have hrow : List.map (List.length ∘ fun y => (List.range n).map fun x => f x y) (List.range n)
      = List.map (fun _ => n) (List.range n) :=
    List.map_congr_left (fun y _ => by simp [Function.comp])
  rw [hrow]
  simp [List.map_const', List.sum_replicate, smul_eq_mul]

/-- Helper: the triangulation guard `x ≠ n - 1 ∧ y ≠ n - 1` admits exactly
`(n - 1)²` grid cells, each contributing a 6-element block. -/
theorem length_flatMap_ite (n : ℕ) (h : 1 ≤ n) (L : ℕ → ℕ → List ℕ)
    (hL : ∀ x y, (L x y).length = 6) :
    ((List.range n).flatMap fun y => (List.range n).flatMap fun x =>
      if x ≠ n - 1 ∧ y ≠ n - 1 then L x y else []).length = 6 * ((n - 1) * (n - 1)) := by
  obtain ⟨m, rfl⟩ : ∃ m, n = m + 1 := ⟨n - 1, by omega⟩
  simp only [Nat.add_sub_cancel]
  rw [List.length_flatMap]
  have inner_len : ∀ y, (List.length ∘ fun y => (List.range (m+1)).flatMap fun x =>
        if x ≠ m ∧ y ≠ m then L x y else []) y
      = if y ≠ m then 6 * m else 0 := by
    intro y
    simp only [Function.comp]
    rw [List.length_flatMap]
    by_cases hy : y = m
    · simp [hy, Function.comp_def, List.map_const', List.sum_replicate]
    · rw [if_pos hy]
      have hmap : (List.map (List.length ∘ fun x => if x ≠ m ∧ y ≠ m then L x y else [])
            (List.range (m+1)))
          = List.map (fun x => if x ≠ m then 6 else 0) (List.range (m+1)) := by
        apply List.map_congr_left
        intro x hx
        by_cases hxx : x = m <;> simp [hxx, hy, hL]
      rw [hmap, List.range_succ, List.map_append, List.sum_append,
        sum_map_ite_ne m m 6 (le_refl m)]
      simp [Nat.mul_comm]
  rw [List.map_congr_left (fun y _ => inner_len y), List.range_succ, List.map_append,
    List.sum_append, sum_map_ite_ne m m (6 * m) (le_refl m)]
  simp; ring

/-- Helper: every index emitted by the triangulation block at an interior
grid cell is below `n²`. -/
theorem mem_flatMap_ite_lt (n : ℕ) (h : 2 ≤ n) (j : ℕ)
    (hj : j ∈ (List.range n).flatMap fun y => (List.range n).flatMap fun x =>
      if x ≠ n - 1 ∧ y ≠ n - 1 then
        [x + y * n, x + y * n + n, x + y * n + n + 1,
         x + y * n, x + y * n + n + 1, x + y * n + 1]
      else []) :
    j < n * n := by
  rw [List.mem_flatMap] at hj
  obtain ⟨y, hy, hj⟩ := hj
  rw [List.mem_flatMap] at hj
  obtain ⟨x, hx, hj⟩ := hj
  rw [List.mem_range] at hy hx
  by_cases hc : x ≠ n - 1 ∧ y ≠ n - 1
  · rw [if_pos hc] at hj
    obtain ⟨m, rfl⟩ : ∃ m, n = m + 2 := ⟨n - 2, by omega⟩
    have hx' : x ≤ m := by omega
    have hy' : y ≤ m := by omega
    simp only [List.mem_cons, List.not_mem_nil, or_false] at hj
    rcases hj with rfl | rfl | rfl | rfl | rfl | rfl <;> nlinarith
  · rw [if_neg hc] at hj
    simp at hj

/-- Helper: one polling pass of `handle_tasks` conserves the quantity
`mesh counter + number of still-pending entities` (each entity is consumed
at most once, incrementing the counter exactly when it is consumed), and
never touches the texture counter. -/
theorem handle_tasks_fold_invariant (finished : List ℕ) (pending : List ℕ) :
    ∀ (st : List ℕ × LoadingProgress),
      (pending.foldl (handle_task_step finished) st).2.mesh +
          (pending.foldl (handle_task_step finished) st).1.length =
        st.2.mesh + st.1.length + pending.length ∧
      (pending.foldl (handle_task_step finished) st).2.texture = st.2.texture := by
  induction pending with
  | nil => intro st; simp
  | cons e rest ih =>
    intro st
    rw [List.foldl_cons]
    rcases ih (handle_task_step finished st e) with ⟨h1, h2⟩
    constructor
    · rw [h1]
      unfold handle_task_step
      split <;> simp <;> omega
    · rw [h2]
      unfold handle_task_step
      split <;> simp

/-- Claim C1 (code_bug evidence).  The claim says the seam-correction step
forces `u = 0` exactly when the spec's degree-valued conditions hold.  The
code instead compares the RADIAN fields against the degree-scale thresholds
`89.0`, `-89.0`, `180.0`, `-40.0`.  Failing input: a vertex whose radian
coordinates are latitude `39/25 = 1.56` (about `89.38°`, outside the
claim's open interval `(-89°, 89°)`) and longitude `1` (about `57.3°`),
in a patch whose first vertex has longitude `-1`; such vertices arise in
real runs, e.g. `generate_face(Vec3::Y, 800, 1.0, 1.0)` near the north
pole.  The code forces `u = 0` there (first conjunct) although the degree
latitude exceeds `89` (second conjunct), the degree longitude is not `180`
(third conjunct), and the computed `u` it overwrites is nonzero (fourth
conjunct) - so the claim's "no other vertex has its computed u replaced"
is violated by the code. -/
theorem C1_seam_check_uses_radians :
    (computeUV (-1) 1 ⟨39/25, 1⟩).1 = 0 ∧
    89 < ((⟨39/25, 1⟩ : Coordinates).as_degrees).1 ∧
    ((⟨39/25, 1⟩ : Coordinates).as_degrees).2 < 180 ∧
    (((⟨39/25, 1⟩ : Coordinates).convert_to_uv_mercator).getD (0, 0)).1 ≠ 0 := by
  refine ⟨?_, ?_, ?_, ?_⟩
  · norm_num [computeUV, seam1, seam2]
  · norm_num [Coordinates.as_degrees, PI]
  · norm_num [Coordinates.as_degrees, PI]
  · norm_num [Coordinates.convert_to_uv_mercator, Coordinates.as_degrees,
      map_latitude, map_longitude, map, PI, Except.toOption]

/-- Claim C2: for every face normal, tile offset and resolution ≥ 2 (and
every instantiation of the transcendental oracles), the generated patch has
exactly `resolution²` positions, normals and uvs, exactly
`6 · (resolution − 1)²` triangle indices, and every emitted index is
strictly below `resolution²`. -/
theorem C2_generate_face_shape (unitize : Vec3 → Vec3) (toCoords : Vec3 → Coordinates)
    (normal : Vec3) (resolution : ℕ) (x_offset y_offset : ℚ)
    (h : 2 ≤ resolution) :
    (generate_face unitize toCoords normal resolution x_offset y_offset).verticies.length
        = resolution * resolution ∧
    (generate_face unitize toCoords normal resolution x_offset y_offset).normals.length
        = resolution * resolution ∧
    (generate_face unitize toCoords normal resolution x_offset y_offset).uvs.length
        = resolution * resolution ∧
    (generate_face unitize toCoords normal resolution x_offset y_offset).indicies.length
        = 6 * ((resolution - 1) * (resolution - 1)) ∧
    ∀ j ∈ (generate_face unitize toCoords normal resolution x_offset y_offset).indicies,
      j < resolution * resolution := by
  refine ⟨?_, ?_, ?_, ?_, ?_⟩
  · exact length_flatMap_grid resolution _
  · exact length_flatMap_grid resolution _
  · exact length_flatMap_grid resolution _
  · exact length_flatMap_ite resolution (by omega) _ (fun x y => rfl)
  · intro j hj
    exact mem_flatMap_ite_lt resolution h j hj

/-- Witness for C2 at the concrete input: trivial oracles, normal `X`,
resolution 2, offset `(0, 0)`. -/
theorem C2_generate_face_shape_witness :
    2 ≤ 2 ∧
    (generate_face trivialUnitize trivialCoords ⟨1, 0, 0⟩ 2 0 0).indicies.length
      = 6 * ((2 - 1) * (2 - 1)) :=
  ⟨by decide,
   (C2_generate_face_shape trivialUnitize trivialCoords ⟨1, 0, 0⟩ 2 0 0 (by decide)).2.2.2.1⟩

/-- Counterexample to claim C3.  The claim says a `resolution < 2` call is
rejected as a precondition violation rather than proceeding into the grid
computation.  On the f32 fragment, at `resolution = 1` the grid computation
does execute: the `percent` division `0.0 / 0.0` is evaluated and gives
NaN, every component of the cell `(0, 0)` cube point is NaN (first
conjunct), the NaN degree latitude fails `map_latitude`'s range check
(second conjunct), and what the call then raises is the downstream
`.unwrap()` panic on that `Err` inside `convert_to_uv_mercator` (third
conjunct) - a mid-computation NaN casualty, not an up-front rejection; no
resolution check exists.  At `resolution = 0` the loop body never runs and
the generation code builds empty buffers while raising no failure itself
(fourth conjunct); only the engine's later `generate_tangents().unwrap()`
on that empty, zero-triangle mesh can fail, outside the embedded code. -/
theorem C3_no_fail_fast_counterexample :
    point_on_unit_cube_f32 ⟨.fin 1, .fin 0, .fin 0⟩ 1 (.fin 0) (.fin 0) 0 0 =
      some ⟨.nan, .nan, .nan⟩ ∧
    map_latitude_f32 .nan = Except.error "Invalid latitude: \x7blat:?\x7d" ∧
    vertex_uv_run nanStrictUnitizeF nanStrictCoordsF
        ⟨.fin 1, .fin 0, .fin 0⟩ 1 (.fin 0) (.fin 0) 0 0 =
      some (Except.error "Invalid latitude: \x7blat:?\x7d") ∧
    generate_face trivialUnitize trivialCoords ⟨0, 0, 1⟩ 0 0 0 =
      { verticies := [], indicies := [], normals := [], uvs := [] } := by
  refine ⟨by rfl, by rfl, by rfl, by rfl⟩

/-- Claim C3 as amended: `generate_face` contains no precondition check on
`resolution` and proceeds into the grid computation for `resolution < 2`.
At `resolution = 1` the call still ends in a fatal, non-recoverable panic,
but downstream of the grid computation rather than as an up-front
rejection: the division by `resolution - 1 = 0` yields NaN (first
conjunct: the cell point is computed and is all-NaN for every normal and
offset), NaN propagates through normalization and the radian conversion
(the NaN-strictness hypotheses on the two oracles, true of `f32`
`normalize`/`asin`/`atan2`), the NaN degree latitude fails `map_latitude`'s
range check, and `convert_to_uv_mercator`'s `.unwrap()` panics on the
`Err` (second conjunct).  At `resolution = 0` the loop body never executes
and the generation code raises no failure itself (third conjunct, in the
rational model, exact there since no arithmetic runs). -/
theorem C3_amended_panic_inside_grid
    (unitizeF : Vec3F → Vec3F) (toCoordsF : Vec3F → CoordinatesF)
    (hu : unitizeF ⟨.nan, .nan, .nan⟩ = ⟨.nan, .nan, .nan⟩)
    (hlat : (toCoordsF ⟨.nan, .nan, .nan⟩).latitude = .nan)
    (normal : Vec3F) (x_offset y_offset : F32) :
    point_on_unit_cube_f32 normal 1 x_offset y_offset 0 0 =
      some ⟨.nan, .nan, .nan⟩ ∧
    vertex_uv_run unitizeF toCoordsF normal 1 x_offset y_offset 0 0 =
      some (Except.error "Invalid latitude: \x7blat:?\x7d") ∧
    ∀ (unitize : Vec3 → Vec3) (toCoords : Vec3 → Coordinates) (n : Vec3) (xo yo : ℚ),
      generate_face unitize toCoords n 0 xo yo =
        { verticies := [], indicies := [], normals := [], uvs := [] } := by
  obtain ⟨nx, ny, nz⟩ := normal
  have hpoint : point_on_unit_cube_f32 ⟨nx, ny, nz⟩ 1 x_offset y_offset 0 0 =
      some ⟨.nan, .nan, .nan⟩ := by
    cases nx <;> cases ny <;> cases nz <;>
      simp [point_on_unit_cube_f32, F32.div, Vec3F.cross, Vec3F.add, Vec3F.scale,
        F32.mul, F32.sub, F32.add]
  refine ⟨hpoint, ?_, fun unitize toCoords n xo yo => rfl⟩
  rw [vertex_uv_run]
  rw [show (point_on_unit_cube_f32 ⟨nx, ny, nz⟩ 1 x_offset y_offset 0 0 >>= fun p =>
      pure (convert_to_uv_mercator_run (toCoordsF (unitizeF p))))
    = some (convert_to_uv_mercator_run (toCoordsF (unitizeF ⟨.nan, .nan, .nan⟩))) from by
      rw [hpoint]; rfl]
  rw [hu]
  rw [convert_to_uv_mercator_run, hlat]
  rfl

/-- Witness for the amended C3: the concrete NaN-strict oracles, face `Y`
and tile offset `(1, 1)` at `resolution = 1`. -/
theorem C3_amended_panic_inside_grid_witness :
    (nanStrictUnitizeF ⟨.nan, .nan, .nan⟩ = ⟨.nan, .nan, .nan⟩ ∧
      (nanStrictCoordsF ⟨.nan, .nan, .nan⟩).latitude = .nan) ∧
    vertex_uv_run nanStrictUnitizeF nanStrictCoordsF
        ⟨.fin 0, .fin 1, .fin 0⟩ 1 (.fin 1) (.fin 1) 0 0 =
      some (Except.error "Invalid latitude: \x7blat:?\x7d") :=
  ⟨⟨rfl, rfl⟩,
   (C3_amended_panic_inside_grid nanStrictUnitizeF nanStrictCoordsF rfl rfl
     ⟨.fin 0, .fin 1, .fin 0⟩ (.fin 1) (.fin 1)).2.1⟩

/-- Claim C4: `map_latitude` errs exactly outside `[-90, 90]` and
`map_longitude` exactly outside `[-180, 180]`; latitude 91 and longitude
181 are rejected while the boundary values ±90 and ±180 succeed. -/
theorem C4_range_validation :
    (∀ d : ℚ, (map_latitude d).isOk = true ↔ (-90 ≤ d ∧ d ≤ 90)) ∧
    (∀ d : ℚ, (map_longitude d).isOk = true ↔ (-180 ≤ d ∧ d ≤ 180)) ∧
    (map_latitude 91).isOk = false ∧ (map_longitude 181).isOk = false ∧
    (map_latitude 90).isOk = true ∧ (map_latitude (-90)).isOk = true ∧
    (map_longitude 180).isOk = true ∧ (map_longitude (-180)).isOk = true := by
  refine ⟨fun d => ?_, fun d => ?_, ?_, ?_, ?_, ?_, ?_, ?_⟩
  · rw [map_latitude]
    by_cases h : -90 ≤ d ∧ d ≤ 90
    · rw [if_neg (not_not_intro h)]
      split <;> simp [Except.isOk, Except.toBool, h]
    · rw [if_pos h]
      simp [Except.isOk, Except.toBool, h]
  · rw [map_longitude]
    by_cases h : -180 ≤ d ∧ d ≤ 180
    · rw [if_neg (not_not_intro h)]
      split <;> simp [Except.isOk, Except.toBool, h]
    · rw [if_pos h]
      simp [Except.isOk, Except.toBool, h]
  · rw [map_latitude, if_pos (by norm_num)]; rfl
  · rw [map_longitude, if_pos (by norm_num)]; rfl
  · rw [map_latitude, if_neg (by norm_num), if_pos (by norm_num)]; rfl
  · rw [map_latitude, if_neg (by norm_num), if_neg (by norm_num)]; rfl
  · rw [map_longitude, if_neg (by norm_num), if_neg (by norm_num)]; rfl
  · rw [map_longitude, if_neg (by norm_num), if_pos (by norm_num)]; rfl

/-- Claim C5: on the valid domain the mappers are the spec's two-segment
piecewise linear maps - latitude 90→0 maps to v 0→1/2 and 0→−90 to
v 1/2→1 (closed forms `(90 − d)/180` and `1/2 − d/180`), longitude
−180→0 maps to u 0→1/2 and 0→180 to u 1/2→1 (closed forms
`(d + 180)/360` and `1/2 + d/360`); the landmark values 0, ±90, ±180 and
the radian origin all map as claimed. -/
theorem C5_piecewise_values :
    (∀ d : ℚ, 0 ≤ d → d ≤ 90 → map_latitude d = Except.ok ((90 - d) / 180)) ∧
    (∀ d : ℚ, -90 ≤ d → d < 0 → map_latitude d = Except.ok (1/2 - d / 180)) ∧
    (∀ d : ℚ, -180 ≤ d → d ≤ 0 → map_longitude d = Except.ok ((d + 180) / 360)) ∧
    (∀ d : ℚ, 0 < d → d ≤ 180 → map_longitude d = Except.ok (1/2 + d / 360)) ∧
    map_latitude 0 = Except.ok (1/2) ∧ map_longitude 0 = Except.ok (1/2) ∧
    map_latitude 90 = Except.ok 0 ∧ map_latitude (-90) = Except.ok 1 ∧
    map_longitude (-180) = Except.ok 0 ∧ map_longitude 180 = Except.ok 1 ∧
    Coordinates.convert_to_uv_mercator ⟨0, 0⟩ = some (1/2, 1/2) := by
  refine ⟨fun d h1 h2 => ?_, fun d h1 h2 => ?_, fun d h1 h2 => ?_, fun d h1 h2 => ?_,
    ?_, ?_, ?_, ?_, ?_, ?_, ?_⟩
  · rw [map_latitude, if_neg (not_not_intro ⟨by linarith, h2⟩), if_pos ⟨h1, h2⟩]
    congr 1; unfold map; norm_num; ring
  · rw [map_latitude, if_neg (not_not_intro ⟨h1, by linarith⟩),
      if_neg (by intro hc; linarith [hc.1])]
    congr 1; unfold map; norm_num; ring
  · rw [map_longitude, if_neg (not_not_intro ⟨h1, by linarith⟩), if_pos ⟨h1, h2⟩]
    congr 1; unfold map; norm_num; ring
  · rw [map_longitude, if_neg (not_not_intro ⟨by linarith, h2⟩),
      if_neg (by intro hc; linarith [hc.2])]
    congr 1; unfold map; norm_num; ring
  · norm_num [map_latitude, map]
  · norm_num [map_longitude, map]
  · norm_num [map_latitude, map]
  · norm_num [map_latitude, map]
  · norm_num [map_longitude, map]
  · norm_num [map_longitude, map]
  · norm_num [Coordinates.convert_to_uv_mercator, Coordinates.as_degrees,
      map_latitude, map_longitude, map, Except.toOption]

/-- Witness for C5 on the first latitude segment at `d = 30`. -/
theorem C5_piecewise_values_witness :
    ((0:ℚ) ≤ 30 ∧ (30:ℚ) ≤ 90) ∧ map_latitude 30 = Except.ok ((90 - 30) / 180) :=
  ⟨⟨by norm_num, by norm_num⟩, C5_piecewise_values.1 30 (by norm_num) (by norm_num)⟩

/-- Claim C6: while in `Loading`, a `check_ready` tick transitions to
`PostLoading` exactly when, on that tick, the mesh counter is ≥ 24 and the
texture counter is ≥ 3; otherwise the state remains `Loading`. -/
theorem C6_loading_transition (b1 b2 b3 : Bool) (p : LoadingProgress) :
    ((check_ready b1 b2 b3 p).2 = GameState.PostLoading ↔
      (24 ≤ (check_ready b1 b2 b3 p).1.mesh ∧ 3 ≤ (check_ready b1 b2 b3 p).1.texture)) ∧
    ((check_ready b1 b2 b3 p).2 = GameState.Loading ↔
      ((check_ready b1 b2 b3 p).1.mesh < 24 ∨ (check_ready b1 b2 b3 p).1.texture < 3)) := by
  unfold check_ready LoadingProgress.is_complete
  cases b1 <;> cases b2 <;> cases b3 <;> simp

/-- Claim C7: starting in `PreLoading`, after fewer than 3 rendered frames
the state is still `PreLoading`; the 3rd frame triggers the transition to
`Loading`; and the frame-count transition is independent of the loading
progress passed to the system. -/
theorem C7_preloading_frames (p : LoadingProgress) :
    (∀ n, n < 3 → (run_frames p n).1 = GameState.PreLoading) ∧
    (run_frames p 3).1 = GameState.Loading ∧
    (∀ q n, run_frames p n = run_frames q n) := by
  refine ⟨fun n hn => ?_, ?_, fun q n => ?_⟩
  · interval_cases n <;> rfl
  · rfl
  · induction n with
    | zero => rfl
    | succ k ih =>
      rw [run_frames, run_frames, ih]
      rfl

/-- Witness for C7 at 2 frames (still `PreLoading`) and zero progress. -/
theorem C7_preloading_frames_witness :
    (2 < 3 ∧ (run_frames ⟨0, 0⟩ 2).1 = GameState.PreLoading) ∧
    (run_frames ⟨0, 0⟩ 3).1 = GameState.Loading :=
  ⟨⟨by decide, (C7_preloading_frames ⟨0, 0⟩).1 2 (by decide)⟩,
   (C7_preloading_frames ⟨0, 0⟩).2.1⟩

/-- Claim C8: the displayed fraction is
`0.7 · (textures/3) + 0.3 · (meshes/24)`, and it is at most 1 whenever the
counters are within their targets; moreover a `handle_tasks` polling tick
preserves `mesh counter + pending jobs ≤ 24` (each job increments the
counter at most once), so the mesh counter never exceeds 24. -/
theorem C8_progress_bounded (p : LoadingProgress)
    (ht : p.texture ≤ 3) (hm : p.mesh ≤ 24) :
    (p.progress = (7/10) * ((p.texture : ℚ) / 3) + (3/10) * ((p.mesh : ℚ) / 24) ∧
      p.progress ≤ 1) ∧
    ∀ finished pending, p.mesh + pending.length ≤ 24 →
      (handle_tasks finished pending p).2.mesh +
          (handle_tasks finished pending p).1.length ≤ 24 ∧
      (handle_tasks finished pending p).2.mesh ≤ 24 := by
  refine ⟨⟨by unfold LoadingProgress.progress; ring, ?_⟩, fun finished pending hp => ?_⟩
  · have ht' : (p.texture : ℚ) ≤ 3 := by exact_mod_cast ht
    have hm' : (p.mesh : ℚ) ≤ 24 := by exact_mod_cast hm
    unfold LoadingProgress.progress
    linarith
  · have h := (handle_tasks_fold_invariant finished pending ([], p)).1
    simp only [List.length_nil] at h
    unfold handle_tasks
    constructor <;> omega

/-- Witness for C8 at the full counters `mesh = 24`, `texture = 3`. -/
theorem C8_progress_bounded_witness :
    ((3:ℕ) ≤ 3 ∧ (24:ℕ) ≤ 24) ∧ LoadingProgress.progress ⟨24, 3⟩ ≤ 1 :=
  ⟨⟨by decide, by decide⟩, (C8_progress_bounded ⟨24, 3⟩ (by decide) (by decide)).1.2⟩

/-- Claim C9: the dispatch step enumerates exactly the 24 jobs given by the
six axis-aligned normals crossed with the four tile offsets, with no
duplicates, in the fixed order with normals as the outer loop and offsets
as the inner loop. -/
theorem C9_spawn_task_enumeration :
    spawn_task.length = 24 ∧ spawn_task.Nodup ∧
    spawn_task =
      [(⟨1, 0, 0⟩, (0, 0)), (⟨1, 0, 0⟩, (0, 1)), (⟨1, 0, 0⟩, (1, 0)), (⟨1, 0, 0⟩, (1, 1)),
       (⟨-1, 0, 0⟩, (0, 0)), (⟨-1, 0, 0⟩, (0, 1)), (⟨-1, 0, 0⟩, (1, 0)), (⟨-1, 0, 0⟩, (1, 1)),
       (⟨0, 1, 0⟩, (0, 0)), (⟨0, 1, 0⟩, (0, 1)), (⟨0, 1, 0⟩, (1, 0)), (⟨0, 1, 0⟩, (1, 1)),
       (⟨0, -1, 0⟩, (0, 0)), (⟨0, -1, 0⟩, (0, 1)), (⟨0, -1, 0⟩, (1, 0)), (⟨0, -1, 0⟩, (1, 1)),
       (⟨0, 0, 1⟩, (0, 0)), (⟨0, 0, 1⟩, (0, 1)), (⟨0, 0, 1⟩, (1, 0)), (⟨0, 0, 1⟩, (1, 1)),
       (⟨0, 0, -1⟩, (0, 0)), (⟨0, 0, -1⟩, (0, 1)), (⟨0, 0, -1⟩, (1, 0)), (⟨0, 0, -1⟩, (1, 1))] :=
  ⟨by decide, by decide, by decide⟩

/-- Claim C10: since `atan2` yields radians in `[-π, π]`, the longitude
field can never equal `180`, so the second seam branch `seam2` is
unreachable and the uv actually pushed is determined by the first branch
alone. -/
theorem C10_seam2_unreachable (x : ℕ) (c : Coordinates)
    (_lo : -PI ≤ c.longitude) (hi : c.longitude ≤ PI) :
    ¬ seam2 x c ∧
    ∀ fl, computeUV fl x c =
      ((if seam1 fl c then 0 else (c.convert_to_uv_mercator.getD (0, 0)).1),
        (c.convert_to_uv_mercator.getD (0, 0)).2) := by
  have hno : ¬ seam2 x c := by
    rintro ⟨-, hlon, -⟩
    rw [hlon] at hi
    norm_num [PI] at hi
  exact ⟨hno, fun fl => by rw [computeUV, if_neg hno]⟩

/-- Witness for C10 at `x = 0` and the radian origin. -/
theorem C10_seam2_unreachable_witness :
    (-PI ≤ (0:ℚ) ∧ (0:ℚ) ≤ PI) ∧ ¬ seam2 0 ⟨0, 0⟩ :=
  ⟨⟨by norm_num [PI], by norm_num [PI]⟩,
   (C10_seam2_unreachable 0 ⟨0, 0⟩ (by norm_num [PI]) (by norm_num [PI])).1⟩
